import Mathlib

/-!
Shallow embedding of the MediSupply video-processing backend
(app/services/video_processor_service.py, app/services/cloud_storage_service.py,
app/config/settings.py, app/models/db_models.py) and proofs about the
video-processing pipeline.

External collaborators (database session, Google Cloud Storage client, the
moviepy encoder, the filesystem) are modelled by an explicit environment
record whose fields give the outcome of each collaborator call; the service
code itself is translated statement by statement.
-/

namespace MediSupply

/-- Raw file content, abstracted to a byte list (Python bytes / BytesIO). -/
abbrev Bytes := List Nat

/-- Python truthiness of an optional string column value:
None and the empty string are falsy, every other string is truthy
(this is what the source's `if not db_client.filename` tests). -/
def pyTruthy : Option String → Bool
  | none => false
  | some s => !s.isEmpty

/-- Row of the scheduled_visit_clients table (app/models/db_models.py,
class ScheduledVisitClientDB); only the columns the pipeline reads or
writes are modelled.  updated_at is an abstract timestamp. -/
structure ScheduledVisitClientDB where
  id : Nat
  filename : Option String
  filename_url : Option String
  file_status : Option String
  filename_processed : Option String
  filename_url_processed : Option String
  updated_at : Nat
deriving Repr, DecidableEq

/-- app/config/settings.py, class Config (default values of the relevant
attributes).  The class body defines BUCKET_NAME, BUCKET_FOLDER,
SIGNING_SERVICE_ACCOUNT_EMAIL, MAX_CONTENT_LENGTH and others, but defines
no BUCKET_FOLDER_VIDEOS attribute; an Option field models the presence or
absence of that attribute on the config object actually injected (the
repository's own Config yields none, so reading it raises AttributeError;
the tests inject mock configs that do carry it). -/
structure Config where
  BUCKET_NAME : String
  BUCKET_FOLDER : String
  SIGNING_SERVICE_ACCOUNT_EMAIL : String
  MAX_CONTENT_LENGTH : Nat
  BUCKET_FOLDER_VIDEOS : Option String

/-- The Config class of settings.py with its hard-coded defaults:
no BUCKET_FOLDER_VIDEOS attribute exists on it. -/
def defaultConfig : Config :=
  { BUCKET_NAME := "medisupply-bucket"
    BUCKET_FOLDER := "sales-plan"
    SIGNING_SERVICE_ACCOUNT_EMAIL := ""
    MAX_CONTENT_LENGTH := 500 * 1024 * 1024
    BUCKET_FOLDER_VIDEOS := none }

/-- Python str.rfind over a character list: index of the last occurrence
of c, or -1 when absent. -/
def rfindIdx (c : Char) : List Char → Int
  | [] => -1
  | x :: xs =>
    let r := rfindIdx c xs
    if r ≥ 0 then r + 1
    else if x = c then 0 else -1

/-- The while-loop of CPython genericpath._splitext: scanning indices
i, i+1, ..., i+fuel-1 of l, returns true as soon as a character other
than '.' is found (fuel is dotIndex - filenameIndex). -/
def stemScan (l : List Char) : Nat → Nat → Bool
  | _, 0 => false
  | i, fuel + 1 => if l.getD i '.' ≠ '.' then true else stemScan l (i + 1) fuel

/-- os.path.splitext on POSIX (sep '/', no altsep, extension separator '.'),
as implemented by CPython genericpath._splitext: split at the last dot when
it lies after the last path separator and at least one non-dot character of
the final segment precedes it; otherwise the extension is empty. -/
def splitext (p : String) : String × String :=
  let l := p.data
  let sepIndex := rfindIdx '/' l
  let dotIndex := rfindIdx '.' l
  if sepIndex < dotIndex then
    if stemScan l (sepIndex + 1).toNat (dotIndex.toNat - (sepIndex + 1).toNat) then
      (String.mk (l.take dotIndex.toNat), String.mk (l.drop dotIndex.toNat))
    else (p, "")
  else (p, "")

/-- VideoProcessorService._generate_processed_filename:
os.path.splitext(original_filename)[0] followed by the fixed suffix. -/
def generate_processed_filename (original_filename : String) : String :=
  (splitext original_filename).1 ++ "_processed.mp4"

/-- Modelled from the spec, for comparison with the source's naming code:
"strip the final filename extension from the original name (extension =
substring after the last dot in the final path segment) and append the
fixed suffix _processed.mp4"; directory components preserved. -/
def deriveNameSpec (p : String) : String :=
  let l := p.data
  let sepIndex := rfindIdx '/' l
  let dotIndex := rfindIdx '.' l
  if sepIndex < dotIndex then String.mk (l.take dotIndex.toNat) ++ "_processed.mp4"
  else p ++ "_processed.mp4"

/-- Outcomes of the external collaborators for one pipeline run.  Each field
gives the result of one collaborator call the service makes: the database
query, the storage download, the moviepy operations, the blob upload, the
signed-URL machinery, the commit, and os.remove.  Except.error carries the
message of the exception the collaborator raises. -/
structure Env where
  /-- session.query(ScheduledVisitClientDB).filter(id == i).first() -/
  db : Nat → Option ScheduledVisitClientDB
  config : Config
  /-- CloudStorageService.download_file filename folder -/
  downloadFile : String → String → Except String Bytes
  /-- VideoFileClip(temp_video_path) (and the resize/set_fps/concatenate
  calls that follow before the second temp file exists): none = succeeds,
  some e = raises with message e. -/
  clipLoadErr : Option String
  /-- os.path.exists(self.logo_path) -/
  logoExists : Bool
  /-- final_video.write_videofile(temp_processed_path, ...) -/
  writeErr : Option String
  /-- Content of the processed file that write_videofile leaves on disk,
  as a function of the downloaded bytes (the moviepy re-encoding is an
  opaque transformation). -/
  compose : Bytes → Bytes
  /-- blob.upload_from_file: none = succeeds, some (isGcsError, msg) =
  raises (GoogleCloudError when the flag is true, another Exception
  otherwise; upload_file catches the two differently). -/
  uploadBlob : Option (Bool × String)
  /-- blob.exists() inside get_file_url (error = the check itself raises) -/
  urlBlobExists : Except String Bool
  /-- credentials loading, impersonation and blob.generate_signed_url,
  collapsed into the one value the try-block would return (error = any of
  them raises). -/
  signedUrl : Except String String
  /-- session.commit(): none = succeeds, some e = raises with message e -/
  commitResult : Option String
  /-- os.remove p: true = succeeds, false = raises (caught and logged by
  cleanup_temp_files) -/
  removeOk : String → Bool
  /-- datetime.utcnow() at the persist step -/
  now : Nat

/-- Abstract path of the first NamedTemporaryFile (suffix '.mp4'). -/
def temp_video_path : String := "/tmp/tmpsrc.mp4"

/-- Abstract path of the second NamedTemporaryFile (suffix '_processed.mp4'). -/
def temp_processed_path : String := "/tmp/tmpout_processed.mp4"

/-- Abstract path of resources/logoMedisupply.png (self.logo_path). -/
def logo_path : String := "resources/logoMedisupply.png"

/-- CloudStorageService.get_file_url filename folder: inside one try-block
it resolves the target folder, checks blob.exists() (false gives the empty
string), and generates a v4 signed URL with impersonated credentials; any
exception raised inside the try-block is caught and the public fallback URL
is returned.  The function is total: no exception escapes it. -/
def get_file_url (env : Env) (filename : String) (folder : Option String) : String :=
  let target_folder := folder.getD env.config.BUCKET_FOLDER
  match env.urlBlobExists with
  | Except.error _ =>
      "https://storage.googleapis.com/" ++ env.config.BUCKET_NAME ++ "/" ++
        target_folder ++ "/" ++ filename
  | Except.ok false => ""
  | Except.ok true =>
      match env.signedUrl with
      | Except.error _ =>
          "https://storage.googleapis.com/" ++ env.config.BUCKET_NAME ++ "/" ++
            target_folder ++ "/" ++ filename
      | Except.ok url => url

/-- CloudStorageService.upload_file file filename folder, returning the
(success, message, signed_url) triple.  fileName is file.filename (the
FileStorage's name; FileStorage truthiness is the truthiness of its
filename, so the source's "not file or not file.filename" collapses to an
emptiness test), fileBytes its stream content.  The content-type detection
and blob.metadata assignment mutate only the outgoing request and are
omitted: they do not affect the returned triple. -/
def upload_file (env : Env) (fileBytes : Bytes) (fileName : String)
    (filename : String) (folder : Option String) : Bool × String × Option String :=
  if fileName.isEmpty then (false, "No se proporcionó archivo", none)
  else if fileBytes.length > env.config.MAX_CONTENT_LENGTH then
    (false,
      "El archivo excede el tamaño máximo permitido de " ++
        toString (env.config.MAX_CONTENT_LENGTH / (1024 * 1024)) ++ " MB",
      none)
  else
    let target_folder := folder.getD env.config.BUCKET_FOLDER
    match env.uploadBlob with
    | some (true, msg) => (false, "Error de Google Cloud Storage: " ++ msg, none)
    | some (false, msg) => (false, "Error al subir archivo: " ++ msg, none)
    | none =>
        (true, "Archivo subido exitosamente",
          some (get_file_url env filename (some target_folder)))

/-- VideoProcessorService._download_video_from_storage: calls
download_file(filename, self.config.BUCKET_FOLDER_VIDEOS) inside a
try-block and re-raises any exception wrapped with a stage message.
When the config object has no BUCKET_FOLDER_VIDEOS attribute (as the
repository's own Config), evaluating the argument raises AttributeError
before download_file is ever invoked; the same except-block wraps it.
The Bool of the pair records whether download_file was actually called. -/
def download_video_from_storage (env : Env) (filename : String) :
    Except String Bytes × Bool :=
  match env.config.BUCKET_FOLDER_VIDEOS with
  | none =>
      (Except.error ("Error al descargar video desde Cloud Storage: " ++
        "'Config' object has no attribute 'BUCKET_FOLDER_VIDEOS'"), false)
  | some folder =>
      match env.downloadFile filename folder with
      | Except.error e =>
          (Except.error ("Error al descargar video desde Cloud Storage: " ++ e), true)
      | Except.ok content => (Except.ok content, true)

/-- VideoProcessorService._process_video_with_logo.  The first temp file is
created (and the downloaded bytes written to it) before anything can fail;
the video load / logo check / second temp file / write_videofile follow in
source order, each raise being wrapped by the except-block of the helper.
Returns (the returned path pair or the raised message, the list of temp
files that now exist on disk).  When the helper raises, the created paths
are NOT part of the exception: the caller's temp-path variables keep their
None value. -/
def process_video_with_logo (env : Env) : Except String (String × String) × List String :=
  match env.clipLoadErr with
  | some e => (Except.error ("Error al procesar video: " ++ e), [temp_video_path])
  | none =>
      if !env.logoExists then
        (Except.error ("Error al procesar video: Logo no encontrado en: " ++ logo_path),
          [temp_video_path])
      else
        match env.writeErr with
        | some e =>
            (Except.error ("Error al procesar video: " ++ e),
              [temp_video_path, temp_processed_path])
        | none =>
            (Except.ok (temp_video_path, temp_processed_path),
              [temp_video_path, temp_processed_path])

/-- VideoProcessorService._upload_processed_video: reads the processed file
back, wraps it as a FileStorage named after the bucket filename and calls
upload_file; an explicit False success flag is turned into a raise that the
helper's own except-block re-wraps.  On success the signed URL of the
triple is returned unchanged. -/
def upload_processed_video (env : Env) (content : Bytes) (filename : String) :
    Except String (Option String) :=
  match upload_file env content filename filename none with
  | (true, _, signed_url) => Except.ok signed_url
  | (false, message, _) =>
      Except.error ("Error al subir video procesado: Error al subir video: " ++ message)

/-- Pointwise update of the persisted table at one id. -/
def setRecord (db : Nat → Option ScheduledVisitClientDB) (i : Nat)
    (r : ScheduledVisitClientDB) : Nat → Option ScheduledVisitClientDB :=
  fun j => if j = i then some r else db j

/-- VideoProcessorService._update_visit_client_record: re-fetches the row,
assigns filename_processed / filename_url_processed / file_status =
"Procesado" / updated_at and commits; any exception (including the
not-found re-raise) triggers session.rollback() — which reverts the
uncommitted attribute assignments, leaving the persisted row unchanged —
and is re-raised wrapped.  Returns (the new persisted table or the raised
message, whether rollback was performed). -/
def update_visit_client_record (env : Env) (visit_client_id : Nat)
    (processed_filename : String) (processed_url : Option String) :
    Except String (Nat → Option ScheduledVisitClientDB) × Bool :=
  match env.db visit_client_id with
  | none => (Except.error "Error al actualizar registro: Registro no encontrado", true)
  | some db_client =>
      match env.commitResult with
      | some e => (Except.error ("Error al actualizar registro: " ++ e), true)
      | none =>
          (Except.ok (setRecord env.db visit_client_id
            { db_client with
              filename_processed := some processed_filename
              filename_url_processed := processed_url
              file_status := some "Procesado"
              updated_at := env.now }), false)

/-- The distinct raise sites of process_video_by_visit_client_id, each
carrying the message built there.  The outer except-block of the source
re-raises every one of them as Exception("Error al procesar video: " ++
message); the constructor records which stage raised. -/
inductive PipeErr where
  | notFound (visit_client_id : Nat)
  | invalidState
  | download (msg : String)
  | compose (msg : String)
  | upload (msg : String)
  | persist (msg : String)
deriving Repr, DecidableEq

/-- The dict returned by process_video_by_visit_client_id on success. -/
structure ProcessingResult where
  visit_client_id : Nat
  original_filename : String
  processed_filename : String
  processed_url : Option String
  status : String
deriving Repr, DecidableEq

/-- Everything observable about one run: the returned value or raised
error, the persisted table after the call, the run's temp files still on
disk after the finally-block, whether the storage download was invoked and
whether session.rollback() ran. -/
structure Outcome where
  result : Except PipeErr ProcessingResult
  db : Nat → Option ScheduledVisitClientDB
  disk : List String
  downloadCalled : Bool
  rollbackCalled : Bool

/-- VideoProcessorService.process_video_by_visit_client_id, translated
branch by branch.  The finally-block calls _cleanup_temp_files on the two
temp-path variables; those variables are only assigned when
_process_video_with_logo returns normally, so on a compose failure the
files it created are not in the cleanup list and survive on disk.
cleanup deletes each listed path that exists, swallowing os.remove
errors (a path whose removeOk is false stays on disk). -/
def process_video_by_visit_client_id (env : Env) (visit_client_id : Nat) : Outcome :=
  match env.db visit_client_id with
  | none =>
      { result := Except.error (PipeErr.notFound visit_client_id)
        db := env.db, disk := [], downloadCalled := false, rollbackCalled := false }
  | some db_client =>
      if !pyTruthy db_client.filename || !pyTruthy db_client.filename_url then
        { result := Except.error PipeErr.invalidState
          db := env.db, disk := [], downloadCalled := false, rollbackCalled := false }
      else
        match download_video_from_storage env (db_client.filename.getD "") with
        | (Except.error e, called) =>
            { result := Except.error (PipeErr.download e)
              db := env.db, disk := [], downloadCalled := called, rollbackCalled := false }
        | (Except.ok video_content, _) =>
            match process_video_with_logo env with
            | (Except.error e, created) =>
                { result := Except.error (PipeErr.compose e)
                  db := env.db, disk := created
                  downloadCalled := true, rollbackCalled := false }
            | (Except.ok _, created) =>
                match upload_processed_video env (env.compose video_content)
                    (generate_processed_filename (db_client.filename.getD "")) with
                | Except.error e =>
                    { result := Except.error (PipeErr.upload e)
                      db := env.db
                      disk := created.filter (fun p => !env.removeOk p)
                      downloadCalled := true, rollbackCalled := false }
                | Except.ok processed_url =>
                    match update_visit_client_record env visit_client_id
                        (generate_processed_filename (db_client.filename.getD ""))
                        processed_url with
                    | (Except.error e, rb) =>
                        { result := Except.error (PipeErr.persist e)
                          db := env.db
                          disk := created.filter (fun p => !env.removeOk p)
                          downloadCalled := true, rollbackCalled := rb }
                    | (Except.ok newDb, _) =>
                        { result := Except.ok
                            { visit_client_id := visit_client_id
                              original_filename := db_client.filename.getD ""
                              processed_filename :=
                                generate_processed_filename (db_client.filename.getD "")
                              processed_url := processed_url
                              status := "Procesado" }
                          db := newDb
                          disk := created.filter (fun p => !env.removeOk p)
                          downloadCalled := true, rollbackCalled := false }

/-- A record that carries an unprocessed source video, as the tests build it
(filename and filename_url populated, processing columns still NULL). -/
def recA : ScheduledVisitClientDB :=
  { id := 1
    filename := some "clip.mp4"
    filename_url := some "https://x/clip.mp4"
    file_status := none
    filename_processed := none
    filename_url_processed := none
    updated_at := 0 }

/-- A config carrying the BUCKET_FOLDER_VIDEOS attribute the tests inject. -/
def testConfig : Config := { defaultConfig with BUCKET_FOLDER_VIDEOS := some "videos" }

/-- Environment in which every collaborator call succeeds. -/
def envOk : Env :=
  { db := fun j => if j = 1 then some recA else none
    config := testConfig
    downloadFile := fun _ _ => Except.ok [7, 7, 7]
    clipLoadErr := none
    logoExists := true
    writeErr := none
    compose := fun b => b
    uploadBlob := none
    urlBlobExists := Except.ok true
    signedUrl := Except.ok "https://signed/clip_processed.mp4"
    commitResult := none
    removeOk := fun _ => true
    now := 42 }

/-- A record whose filename column is the empty string. -/
def recNoVideo : ScheduledVisitClientDB :=
  { id := 3
    filename := some ""
    filename_url := none
    file_status := none
    filename_processed := none
    filename_url_processed := none
    updated_at := 0 }

/-- Environment whose record 3 has no source video. -/
def envNoVideo : Env :=
  { envOk with db := fun j => if j = 3 then some recNoVideo else none }

/-- envOk with the branding logo absent from disk. -/
def envLogoMissing : Env := { envOk with logoExists := false }

/-- envOk wired — as the controller wires production — with the
repository's own Config from settings.py. -/
def envDefaultConfig : Env := { envOk with config := defaultConfig }

/-- envOk with a storage client whose blob upload raises GoogleCloudError. -/
def envUploadFail : Env := { envOk with uploadBlob := some (true, "boom") }

/-- envOk except that inside get_file_url the existence check for the just
uploaded blob answers false. -/
def envNoBlobUrl : Env := { envOk with urlBlobExists := Except.ok false }

/-- The environment of the second run over the table the first successful
run (in envOk) committed, with a fresh signed URL and a later clock. -/
def envRerun : Env :=
  { envOk with
    db := (process_video_by_visit_client_id envOk 1).db
    signedUrl := Except.ok "https://signed2/clip_processed.mp4"
    now := 99 }

/-- The final path segment has a character other than '.' strictly before
its last dot — the condition under which CPython recognises an extension at
all (leading dots of the last segment never start one). -/
def stemNonempty (p : String) : Prop :=
  rfindIdx '/' p.data < rfindIdx '.' p.data →
    stemScan p.data ((rfindIdx '/' p.data) + 1).toNat
      ((rfindIdx '.' p.data).toNat - ((rfindIdx '/' p.data) + 1).toNat) = true

example : splitext "video.mp4" = ("video", ".mp4") := by decide
example : splitext ".mp4" = (".mp4", "") := by decide
example : splitext "path/to/video.mp4" = ("path/to/video", ".mp4") := by decide
example : generate_processed_filename "my.video.file.mp4" = "my.video.file_processed.mp4" := by
  decide

example :
    (process_video_by_visit_client_id envOk 1).result = Except.ok
      { visit_client_id := 1
        original_filename := "clip.mp4"
        processed_filename := "clip_processed.mp4"
        processed_url := some "https://signed/clip_processed.mp4"
        status := "Procesado" } := rfl

example : (process_video_by_visit_client_id envOk 1).disk = [] := by decide

example :
    (process_video_by_visit_client_id envOk 1).db 1 = some
      { id := 1
        filename := some "clip.mp4"
        filename_url := some "https://x/clip.mp4"
        file_status := some "Procesado"
        filename_processed := some "clip_processed.mp4"
        filename_url_processed := some "https://signed/clip_processed.mp4"
        updated_at := 42 } := by decide

/-- Whenever _update_visit_client_record raises, it has called
session.rollback() first: every error branch of the helper carries the
rollback flag. -/
theorem update_error_rollback (env : Env) (i : Nat) (pf : String)
    (pu : Option String) (m : String) (rb : Bool)
    (h : update_visit_client_record env i pf pu = (Except.error m, rb)) :
    rb = true := by
  unfold update_visit_client_record at h
  revert h
  cases env.db i with
  | none => intro h; injection h with h1 h2; exact h2.symm
  | some rec =>
    cases env.commitResult with
    | none => intro h; injection h with h1 h2; injection h1
    | some ce => intro h; injection h with h1 h2; exact h2.symm

/-- C8: for every record_id not present in the store, process fails with the
not-found error and the persisted table is untouched. -/
theorem C8_not_found (env : Env) (i : Nat) (h : env.db i = none) :
    (process_video_by_visit_client_id env i).result =
        Except.error (PipeErr.notFound i) ∧
      (process_video_by_visit_client_id env i).db = env.db := by
  unfold process_video_by_visit_client_id
  rw [h]
  exact ⟨rfl, rfl⟩

/-- Witness for C8: envOk holds no record with id 2. -/
theorem C8_not_found_witness :
    (process_video_by_visit_client_id envOk 2).result =
        Except.error (PipeErr.notFound 2) ∧
      (process_video_by_visit_client_id envOk 2).db = envOk.db :=
  C8_not_found envOk 2 rfl

/-- C1: a run that fails at any stage leaves the persisted table exactly as
it was before the call — in particular file_status is never set to the
success marker by a failing run — and a failure raised at the persist stage
has performed the rollback before the error propagates. -/
theorem C1_failure_leaves_record_unchanged (env : Env) (i : Nat) (e : PipeErr)
    (h : (process_video_by_visit_client_id env i).result = Except.error e) :
    (process_video_by_visit_client_id env i).db = env.db ∧
      (∀ m, e = PipeErr.persist m →
        (process_video_by_visit_client_id env i).rollbackCalled = true) := by
  unfold process_video_by_visit_client_id at h ⊢
  repeat' split at h
  all_goals simp_all
  all_goals intro m hm
  all_goals subst hm
  all_goals first
    | exact PipeErr.noConfusion h
    | exact update_error_rollback _ _ _ _ _ _ (by assumption)

/-- Witness for C1: the not-found failure at record 2 of envOk. -/
theorem C1_witness :
    (process_video_by_visit_client_id envOk 2).db = envOk.db ∧
      (∀ m, PipeErr.notFound 2 = PipeErr.persist m →
        (process_video_by_visit_client_id envOk 2).rollbackCalled = true) :=
  C1_failure_leaves_record_unchanged envOk 2 (PipeErr.notFound 2) rfl

/-- The derived output name always carries the fixed suffix, hence is never
empty. -/
theorem generate_processed_filename_isEmpty (s : String) :
    (generate_processed_filename s).isEmpty = false := by
  have hne : generate_processed_filename s ≠ "" := by
    unfold generate_processed_filename
    intro hc
    have h2 : ((splitext s).1 ++ "_processed.mp4").data = ("" : String).data := by
      rw [hc]
    rw [String.data_append] at h2
    simp at h2
  cases he : (generate_processed_filename s).isEmpty
  · rfl
  · exact absurd ((String.isEmpty_iff _).mp he) hne

/-- Stage reduction: a download whose folder attribute is present and whose
store call succeeds. -/
theorem download_ok (env : Env) (f folder : String) (bs : Bytes)
    (hfold : env.config.BUCKET_FOLDER_VIDEOS = some folder)
    (hdl : env.downloadFile f folder = Except.ok bs) :
    download_video_from_storage env f = (Except.ok bs, true) := by
  unfold download_video_from_storage
  simp [hfold, hdl]

/-- Stage reduction: a composition in which the clip loads, the logo exists
and the encode succeeds. -/
theorem compose_ok (env : Env)
    (hclip : env.clipLoadErr = none) (hlogo : env.logoExists = true)
    (hwrite : env.writeErr = none) :
    process_video_with_logo env =
      (Except.ok (temp_video_path, temp_processed_path),
        [temp_video_path, temp_processed_path]) := by
  unfold process_video_with_logo
  simp [hclip, hlogo, hwrite]

/-- C6: a record that exists but whose filename or filename_url is empty or
None makes the run fail with the invalid-state error, with no download
attempted and the persisted table untouched. -/
theorem C6_invalid_state (env : Env) (i : Nat) (rec : ScheduledVisitClientDB)
    (hdb : env.db i = some rec)
    (hempty : pyTruthy rec.filename = false ∨ pyTruthy rec.filename_url = false) :
    (process_video_by_visit_client_id env i).result =
        Except.error PipeErr.invalidState ∧
      (process_video_by_visit_client_id env i).downloadCalled = false ∧
      (process_video_by_visit_client_id env i).db = env.db := by
  have hcond : (!pyTruthy rec.filename || !pyTruthy rec.filename_url) = true := by
    rcases hempty with h | h <;> simp [h]
  unfold process_video_by_visit_client_id
  simp only [hdb, hcond]
  exact ⟨rfl, rfl, rfl⟩

/-- Witness for C6 at the record with the empty filename. -/
theorem C6_invalid_state_witness :
    (process_video_by_visit_client_id envNoVideo 3).result =
        Except.error PipeErr.invalidState ∧
      (process_video_by_visit_client_id envNoVideo 3).downloadCalled = false ∧
      (process_video_by_visit_client_id envNoVideo 3).db = envNoVideo.db :=
  C6_invalid_state envNoVideo 3 recNoVideo rfl (Or.inl rfl)

/-- C2 (code bug): when composition fails after the first staging file was
created — here the branding logo is missing — _process_video_with_logo
raises before returning the path pair, so the caller's temp-path variables
keep their None value, the finally-block cleanup has nothing to delete, and
the staging file survives the call even though os.remove would have
succeeded on it; the caller sees only the compose failure. -/
theorem C2_compose_failure_leaks_temp_file :
    (process_video_by_visit_client_id envLogoMissing 1).result =
        Except.error (PipeErr.compose
          ("Error al procesar video: Logo no encontrado en: " ++ logo_path)) ∧
      (process_video_by_visit_client_id envLogoMissing 1).disk = [temp_video_path] ∧
      envLogoMissing.removeOk temp_video_path = true :=
  ⟨rfl, rfl, rfl⟩

/-- C5 (code bug): settings.py's Config defines no BUCKET_FOLDER_VIDEOS
attribute, so with the repository's own Config the download step raises
AttributeError while evaluating the folder argument; the store's
download_file is never invoked — nothing is ever fetched from a "videos"
folder — and the run fails wrapped as a download-stage error. -/
theorem C5_missing_videos_folder_attribute :
    (process_video_by_visit_client_id envDefaultConfig 1).result =
        Except.error (PipeErr.download
          ("Error al descargar video desde Cloud Storage: " ++
            "'Config' object has no attribute 'BUCKET_FOLDER_VIDEOS'")) ∧
      (process_video_by_visit_client_id envDefaultConfig 1).downloadCalled = false :=
  ⟨rfl, rfl⟩

/-- C4 counterexample: for the filename ".mp4", os.path.splitext treats the
leading dot as part of the root (no extension is recognised), so the code
derives ".mp4_processed.mp4", while the claim's rule — strip the substring
after the last dot of the final path segment — derives "_processed.mp4". -/
theorem C4_counterexample :
    generate_processed_filename ".mp4" = ".mp4_processed.mp4" ∧
      deriveNameSpec ".mp4" = "_processed.mp4" ∧
      generate_processed_filename ".mp4" ≠ deriveNameSpec ".mp4" := by
  refine ⟨rfl, rfl, ?_⟩
  decide

/-- C4 amended: the code's derived name agrees with the spec's rule for
every filename except those whose final segment consists of dots up to the
last dot (e.g. hidden-file style names), where the code keeps the whole
segment; on such names no extension is stripped.  The three concrete
examples of the claim hold as stated. -/
theorem C4_naming_amended :
    (∀ p : String, stemNonempty p →
        generate_processed_filename p = deriveNameSpec p) ∧
      generate_processed_filename "video.mp4" = "video_processed.mp4" ∧
      generate_processed_filename "my.video.file.mp4" = "my.video.file_processed.mp4" ∧
      generate_processed_filename "path/to/video.mp4" = "path/to/video_processed.mp4" := by
  refine ⟨?_, rfl, rfl, rfl⟩
  intro p hp
  by_cases hc : rfindIdx '/' p.data < rfindIdx '.' p.data
  · simp [generate_processed_filename, splitext, deriveNameSpec, hc, hp hc]
  · simp [generate_processed_filename, splitext, deriveNameSpec, hc]

/-- Witness for C4 amended at "video.mp4". -/
theorem C4_naming_amended_witness :
    generate_processed_filename "video.mp4" = deriveNameSpec "video.mp4" :=
  C4_naming_amended.1 "video.mp4" (by unfold stemNonempty; decide)

/-- C7: when upload_file reports failure through its explicit False flag,
the run fails with the upload-stage error that carries the store's message,
and the persisted table — in particular file_status — is unchanged. -/
theorem C7_upload_reported_failure (env : Env) (i : Nat)
    (rec : ScheduledVisitClientDB) (folder : String) (bs : Bytes)
    (msg : String) (u3 : Option String)
    (hdb : env.db i = some rec)
    (hf : pyTruthy rec.filename = true) (hu : pyTruthy rec.filename_url = true)
    (hfold : env.config.BUCKET_FOLDER_VIDEOS = some folder)
    (hdl : env.downloadFile (rec.filename.getD "") folder = Except.ok bs)
    (hclip : env.clipLoadErr = none) (hlogo : env.logoExists = true)
    (hwrite : env.writeErr = none)
    (hupl : upload_file env (env.compose bs)
        (generate_processed_filename (rec.filename.getD ""))
        (generate_processed_filename (rec.filename.getD "")) none =
        (false, msg, u3)) :
    (process_video_by_visit_client_id env i).result =
        Except.error (PipeErr.upload
          ("Error al subir video procesado: Error al subir video: " ++ msg)) ∧
      (process_video_by_visit_client_id env i).db = env.db := by
  unfold process_video_by_visit_client_id
  simp only [hdb, hf, hu, download_ok env _ folder bs hfold hdl,
    compose_ok env hclip hlogo hwrite, upload_processed_video, hupl]
  exact ⟨rfl, rfl⟩

/-- Witness for C7: the GoogleCloudError-reported upload failure. -/
theorem C7_upload_reported_failure_witness :
    (process_video_by_visit_client_id envUploadFail 1).result =
        Except.error (PipeErr.upload
          ("Error al subir video procesado: Error al subir video: " ++
            "Error de Google Cloud Storage: boom")) ∧
      (process_video_by_visit_client_id envUploadFail 1).db = envUploadFail.db :=
  C7_upload_reported_failure envUploadFail 1 recA "videos" [7, 7, 7]
    "Error de Google Cloud Storage: boom" none rfl rfl rfl rfl rfl rfl rfl rfl rfl

/-- Characterisation of a fully successful run: when the record is present
with a populated source video and every collaborator call succeeds, the run
returns the success dict and commits exactly the three processed fields
plus the timestamp, leaving every other column of the record and every
other record untouched. -/
theorem process_success_eq (env : Env) (i : Nat)
    (rec : ScheduledVisitClientDB) (folder : String) (bs : Bytes)
    (hdb : env.db i = some rec)
    (hf : pyTruthy rec.filename = true) (hu : pyTruthy rec.filename_url = true)
    (hfold : env.config.BUCKET_FOLDER_VIDEOS = some folder)
    (hdl : env.downloadFile (rec.filename.getD "") folder = Except.ok bs)
    (hclip : env.clipLoadErr = none) (hlogo : env.logoExists = true)
    (hwrite : env.writeErr = none)
    (hupl : env.uploadBlob = none)
    (hsize : (env.compose bs).length ≤ env.config.MAX_CONTENT_LENGTH)
    (hcommit : env.commitResult = none) :
    (process_video_by_visit_client_id env i).result = Except.ok
        { visit_client_id := i
          original_filename := rec.filename.getD ""
          processed_filename := generate_processed_filename (rec.filename.getD "")
          processed_url := some (get_file_url env
            (generate_processed_filename (rec.filename.getD ""))
            (some env.config.BUCKET_FOLDER))
          status := "Procesado" } ∧
      (process_video_by_visit_client_id env i).db = setRecord env.db i
        { rec with
          filename_processed :=
            some (generate_processed_filename (rec.filename.getD ""))
          filename_url_processed := some (get_file_url env
            (generate_processed_filename (rec.filename.getD ""))
            (some env.config.BUCKET_FOLDER))
          file_status := some "Procesado"
          updated_at := env.now } := by
  have hsize2 : ¬ env.config.MAX_CONTENT_LENGTH < (env.compose bs).length :=
    Nat.not_lt.mpr hsize
  have hupl2 : upload_file env (env.compose bs)
      (generate_processed_filename (rec.filename.getD ""))
      (generate_processed_filename (rec.filename.getD "")) none =
      (true, "Archivo subido exitosamente",
        some (get_file_url env (generate_processed_filename (rec.filename.getD ""))
          (some env.config.BUCKET_FOLDER))) := by
    unfold upload_file
    simp [generate_processed_filename_isEmpty, hsize2, hupl]
  have hupd2 : update_visit_client_record env i
      (generate_processed_filename (rec.filename.getD ""))
      (some (get_file_url env (generate_processed_filename (rec.filename.getD ""))
        (some env.config.BUCKET_FOLDER))) =
      (Except.ok (setRecord env.db i
        { rec with
          filename_processed :=
            some (generate_processed_filename (rec.filename.getD ""))
          filename_url_processed := some (get_file_url env
            (generate_processed_filename (rec.filename.getD ""))
            (some env.config.BUCKET_FOLDER))
          file_status := some "Procesado"
          updated_at := env.now }), false) := by
    unfold update_visit_client_record
    simp [hdb, hcommit]
  unfold process_video_by_visit_client_id
  simp only [hdb, hf, hu, download_ok env _ folder bs hfold hdl,
    compose_ok env hclip hlogo hwrite, upload_processed_video, hupl2, hupd2]
  exact ⟨rfl, rfl⟩

/-- C3 counterexample: a fully successful run in which get_file_url's
existence check answers false: upload_file still reports success but with
an empty access URL, the run succeeds with the success marker, and
filename_url_processed is committed as the empty string — refuting the
claim that both processed fields are always non-empty on success. -/
theorem C3_counterexample :
    (process_video_by_visit_client_id envNoBlobUrl 1).result = Except.ok
        { visit_client_id := 1
          original_filename := "clip.mp4"
          processed_filename := "clip_processed.mp4"
          processed_url := some ""
          status := "Procesado" } ∧
      ((process_video_by_visit_client_id envNoBlobUrl 1).db 1).map
          (fun r => r.filename_url_processed) = some (some "") ∧
      ((process_video_by_visit_client_id envNoBlobUrl 1).db 1).map
          (fun r => r.file_status) = some (some "Procesado") :=
  ⟨rfl, rfl, rfl⟩

/-- The pipeline has a single return site and it writes status "Procesado":
no dict with any other status string is ever returned. -/
theorem ok_status (env : Env) (i : Nat) (r : ProcessingResult)
    (h : (process_video_by_visit_client_id env i).result = Except.ok r) :
    r.status = "Procesado" := by
  unfold process_video_by_visit_client_id at h
  repeat' split at h
  all_goals simp_all
  subst h
  rfl

/-- C3 amended: a successful run on a record with a populated source
filename commits file_status = the success marker, filename_processed =
the derived name (never empty), and filename_url_processed = the access
URL the store returned — which the store may report as the empty string —
and returns the dict whose status is the success marker and whose
processed_filename is splitext(original).1 ++ "_processed.mp4"; moreover no
run ever returns a dict with a different status string. -/
theorem C3_success_contract (env : Env) (i : Nat)
    (rec : ScheduledVisitClientDB) (folder : String) (bs : Bytes)
    (hdb : env.db i = some rec)
    (hf : pyTruthy rec.filename = true) (hu : pyTruthy rec.filename_url = true)
    (hfold : env.config.BUCKET_FOLDER_VIDEOS = some folder)
    (hdl : env.downloadFile (rec.filename.getD "") folder = Except.ok bs)
    (hclip : env.clipLoadErr = none) (hlogo : env.logoExists = true)
    (hwrite : env.writeErr = none)
    (hupl : env.uploadBlob = none)
    (hsize : (env.compose bs).length ≤ env.config.MAX_CONTENT_LENGTH)
    (hcommit : env.commitResult = none) :
    ((process_video_by_visit_client_id env i).db i).map
        (fun r => r.file_status) = some (some "Procesado") ∧
      ((process_video_by_visit_client_id env i).db i).map
        (fun r => r.filename_processed) =
          some (some (generate_processed_filename (rec.filename.getD ""))) ∧
      (generate_processed_filename (rec.filename.getD "")).isEmpty = false ∧
      ((process_video_by_visit_client_id env i).db i).map
        (fun r => r.filename_url_processed) =
          some (some (get_file_url env
            (generate_processed_filename (rec.filename.getD ""))
            (some env.config.BUCKET_FOLDER))) ∧
      (process_video_by_visit_client_id env i).result = Except.ok
        { visit_client_id := i
          original_filename := rec.filename.getD ""
          processed_filename := generate_processed_filename (rec.filename.getD "")
          processed_url := some (get_file_url env
            (generate_processed_filename (rec.filename.getD ""))
            (some env.config.BUCKET_FOLDER))
          status := "Procesado" } ∧
      (∀ envA : Env, ∀ iA : Nat, ∀ rA : ProcessingResult,
        (process_video_by_visit_client_id envA iA).result = Except.ok rA →
          rA.status = "Procesado") := by
  obtain ⟨h1, h2⟩ := process_success_eq env i rec folder bs hdb hf hu hfold hdl
    hclip hlogo hwrite hupl hsize hcommit
  refine ⟨?_, ?_, generate_processed_filename_isEmpty _, ?_, h1,
    fun envA iA rA hA => ok_status envA iA rA hA⟩
  all_goals rw [h2]
  all_goals simp [setRecord]

/-- Witness for C3 amended at the all-success environment. -/
theorem C3_success_contract_witness :
    ((process_video_by_visit_client_id envOk 1).db 1).map
        (fun r => r.file_status) = some (some "Procesado") :=
  (C3_success_contract envOk 1 recA "videos" [7, 7, 7] rfl rfl rfl rfl rfl rfl
    rfl rfl rfl (by decide) rfl).1

/-- C9: after a successful first run on a record, a second run on the same
record_id whose collaborator calls again all succeed also succeeds, derives
the same output filename (the update step never touches the source filename),
and overwrites filename_processed and filename_url_processed with the
second run's fresh values. -/
theorem C9_rerun_idempotent (env₁ env₂ : Env) (i : Nat)
    (rec : ScheduledVisitClientDB) (folder₁ folder₂ : String) (bs₁ bs₂ : Bytes)
    (hdb : env₁.db i = some rec)
    (hf : pyTruthy rec.filename = true) (hu : pyTruthy rec.filename_url = true)
    (hfold₁ : env₁.config.BUCKET_FOLDER_VIDEOS = some folder₁)
    (hdl₁ : env₁.downloadFile (rec.filename.getD "") folder₁ = Except.ok bs₁)
    (hclip₁ : env₁.clipLoadErr = none) (hlogo₁ : env₁.logoExists = true)
    (hwrite₁ : env₁.writeErr = none) (hupl₁ : env₁.uploadBlob = none)
    (hsize₁ : (env₁.compose bs₁).length ≤ env₁.config.MAX_CONTENT_LENGTH)
    (hcommit₁ : env₁.commitResult = none)
    (hdb₂ : env₂.db = (process_video_by_visit_client_id env₁ i).db)
    (hfold₂ : env₂.config.BUCKET_FOLDER_VIDEOS = some folder₂)
    (hdl₂ : env₂.downloadFile (rec.filename.getD "") folder₂ = Except.ok bs₂)
    (hclip₂ : env₂.clipLoadErr = none) (hlogo₂ : env₂.logoExists = true)
    (hwrite₂ : env₂.writeErr = none) (hupl₂ : env₂.uploadBlob = none)
    (hsize₂ : (env₂.compose bs₂).length ≤ env₂.config.MAX_CONTENT_LENGTH)
    (hcommit₂ : env₂.commitResult = none) :
    (process_video_by_visit_client_id env₂ i).result = Except.ok
        { visit_client_id := i
          original_filename := rec.filename.getD ""
          processed_filename := generate_processed_filename (rec.filename.getD "")
          processed_url := some (get_file_url env₂
            (generate_processed_filename (rec.filename.getD ""))
            (some env₂.config.BUCKET_FOLDER))
          status := "Procesado" } ∧
      (process_video_by_visit_client_id env₂ i).db i = some
        { rec with
          filename_processed :=
            some (generate_processed_filename (rec.filename.getD ""))
          filename_url_processed := some (get_file_url env₂
            (generate_processed_filename (rec.filename.getD ""))
            (some env₂.config.BUCKET_FOLDER))
          file_status := some "Procesado"
          updated_at := env₂.now } := by
  obtain ⟨h1, h2⟩ := process_success_eq env₁ i rec folder₁ bs₁ hdb hf hu hfold₁
    hdl₁ hclip₁ hlogo₁ hwrite₁ hupl₁ hsize₁ hcommit₁
  have hdb2i : env₂.db i = some
      { rec with
        filename_processed :=
          some (generate_processed_filename (rec.filename.getD ""))
        filename_url_processed := some (get_file_url env₁
          (generate_processed_filename (rec.filename.getD ""))
          (some env₁.config.BUCKET_FOLDER))
        file_status := some "Procesado"
        updated_at := env₁.now } := by
    rw [hdb₂, h2]
    simp [setRecord]
  obtain ⟨g1, g2⟩ := process_success_eq env₂ i _ folder₂ bs₂ hdb2i hf hu hfold₂
    hdl₂ hclip₂ hlogo₂ hwrite₂ hupl₂ hsize₂ hcommit₂
  refine ⟨g1, ?_⟩
  rw [g2]
  unfold setRecord
  simp

/-- Witness for C9: the second run over envOk's committed table. -/
theorem C9_rerun_idempotent_witness :
    (process_video_by_visit_client_id envRerun 1).result = Except.ok
      { visit_client_id := 1
        original_filename := "clip.mp4"
        processed_filename := "clip_processed.mp4"
        processed_url := some "https://signed2/clip_processed.mp4"
        status := "Procesado" } :=
  (C9_rerun_idempotent envOk envRerun 1 recA "videos" "videos" [7, 7, 7] [7, 7, 7]
    rfl rfl rfl rfl rfl rfl rfl rfl rfl (by decide) rfl
    rfl rfl rfl rfl rfl rfl rfl (by decide) rfl).1

/-- C10: get_file_url never raises — each collaborator outcome yields a
plain string: a false existence check yields the empty string, any
exception inside the try-block yields the public fallback URL, and success
yields the signed URL; consequently upload_file can report success together
with an empty access URL, and a fully successful run then commits
filename_url_processed as the empty string while still writing the success
marker. -/
theorem C10_get_file_url_never_raises (env : Env) (f : String) (fo : Option String) :
    (env.urlBlobExists = Except.ok false → get_file_url env f fo = "") ∧
      (∀ e, env.urlBlobExists = Except.error e →
        get_file_url env f fo =
          "https://storage.googleapis.com/" ++ env.config.BUCKET_NAME ++ "/" ++
            fo.getD env.config.BUCKET_FOLDER ++ "/" ++ f) ∧
      (∀ e, env.urlBlobExists = Except.ok true → env.signedUrl = Except.error e →
        get_file_url env f fo =
          "https://storage.googleapis.com/" ++ env.config.BUCKET_NAME ++ "/" ++
            fo.getD env.config.BUCKET_FOLDER ++ "/" ++ f) ∧
      (∀ u, env.urlBlobExists = Except.ok true → env.signedUrl = Except.ok u →
        get_file_url env f fo = u) ∧
      upload_file envNoBlobUrl [7, 7, 7] "clip_processed.mp4"
          "clip_processed.mp4" none =
        (true, "Archivo subido exitosamente", some "") ∧
      ((process_video_by_visit_client_id envNoBlobUrl 1).db 1).map
          (fun r => r.filename_url_processed) = some (some "") ∧
      ((process_video_by_visit_client_id envNoBlobUrl 1).db 1).map
          (fun r => r.file_status) = some (some "Procesado") := by
  refine ⟨?_, ?_, ?_, ?_, rfl, rfl, rfl⟩
  · intro h; unfold get_file_url; rw [h]
  · intro e h; unfold get_file_url; rw [h]
  · intro e h1 h2; unfold get_file_url; rw [h1, h2]
  · intro u h1 h2; unfold get_file_url; rw [h1, h2]

/-- Witness for C10: the empty URL on a false existence check. -/
theorem C10_get_file_url_never_raises_witness :
    get_file_url envNoBlobUrl "clip_processed.mp4" none = "" :=
  (C10_get_file_url_never_raises envNoBlobUrl "clip_processed.mp4" none).1 rfl

end MediSupply
